import Mathlib

/-!
# Verification of the git-sim MCP server core

A shallow embedding of the tool-call dispatch engine of the git-sim MCP
server: the command compiler (`build_git_sim_command`), the process runner
and output interpreter (`execute_git_sim`), the CORS policy resolution of
the SSE transport (`get_cors_config`), and the repository-clone cache
(`clone_repo` / `cleanup_cloned_repos`, modelled from the spec since their
code is missing from the source tree).

Python text primitives (`str.split`, `str.strip`, `str.lower`, `in`,
`str.endswith`, `" ".join`) are embedded as structurally recursive
functions over `List Char` so that every definition evaluates inside the
kernel on concrete inputs.

The filesystem is abstracted as a predicate `String → Bool` (does this
path exist on disk?), and the asynchronous subprocess step is abstracted
as a `SpawnOutcome` value: either an exception while building the command,
an exception while spawning or reading the process, or a completed process
with its exit code and decoded output streams.
-/

namespace GitSimMCP

/-! ## Python text primitives -/

/-- The whitespace characters recognised by Python's `str.split()` /
`str.strip()` (space, tab, newline, carriage return, vertical tab,
form feed; non-ASCII whitespace is not needed by this development). -/
def pyIsSpace (c : Char) : Bool :=
  c == ' ' || c == '\t' || c == '\n' || c == '\r' || c == '\x0b' || c == '\x0c'

/-- Split a character list on a single separator character, keeping empty
pieces, as Python's `str.split(sep)` does for a one-character `sep`. -/
def listSplitOnChar (sep : Char) : List Char → List (List Char)
  | [] => [[]]
  | c :: rest =>
    if c == sep then [] :: listSplitOnChar sep rest
    else
      match listSplitOnChar sep rest with
      | [] => [[c]]
      | a :: as => (c :: a) :: as

/-- Python's `s.split(sep)` for a one-character separator. -/
def pySplitOnChar (sep : Char) (s : String) : List String :=
  (listSplitOnChar sep s.data).map String.mk

/-- Python's no-argument `s.split()`: split on runs of whitespace,
producing no empty tokens. -/
def pySplitWs (l : List Char) : List (List Char) :=
  let step := fun (acc : List (List Char) × List Char) (c : Char) =>
    if pyIsSpace c then
      if acc.2 == ([] : List Char) then acc else (acc.1 ++ [acc.2], [])
    else (acc.1, acc.2 ++ [c])
  let r := l.foldl step ([], [])
  if r.2 == ([] : List Char) then r.1 else r.1 ++ [r.2]

/-- Python's `s.strip()`: remove leading and trailing whitespace. -/
def pyStrip (s : String) : String :=
  String.mk (((s.data.dropWhile pyIsSpace).reverse.dropWhile pyIsSpace).reverse)

/-- `listEndsWith s suffix` is true iff `suffix` is a suffix of `s`. -/
def listEndsWith (s suffix : List Char) : Bool :=
  suffix == s.drop (s.length - suffix.length)

/-- Python's `s.endswith(suffix)`. -/
def strEndsWith (s suffix : String) : Bool :=
  listEndsWith s.data suffix.data

/-- `listStartsWith s pat` is true iff `pat` is a prefix of `s`. -/
def listStartsWith : List Char → List Char → Bool
  | _, [] => true
  | [], _ :: _ => false
  | a :: as, b :: bs => a == b && listStartsWith as bs

/-- `listContainsSub s pat` is true iff `pat` occurs contiguously in `s`. -/
def listContainsSub : List Char → List Char → Bool
  | [], pat => listStartsWith [] pat
  | s@(_ :: rest), pat => listStartsWith s pat || listContainsSub rest pat

/-- Python's `pat in s` substring test. -/
def strContainsSub (s pat : String) : Bool :=
  listContainsSub s.data pat.data

/-- Python's `s.lower()` (ASCII case folding suffices here). -/
def pyLower (s : String) : String :=
  String.mk (s.data.map Char.toLower)

/-- Truthiness of a Python `Optional[str]`: `None` and `""` are falsy. -/
def pyTruthyOptStr : Option String → Bool
  | none => false
  | some s => s != ""

/-! ## Command compiler (`build_git_sim_command` of `git_sim_mcp/server.py`) -/

/-- Embeds `build_git_sim_command` from `src/git_sim_mcp/server.py`
(lines 140-201): the sequential construction of the git-sim argument
vector.  `repo_path` is accepted but unused, exactly as in the source
(it only serves as the working directory of the later subprocess call).
`media_dir` is `Optional[str]`; Python's `if media_dir:` makes both
`None` and `""` skip the flag. -/
def build_git_sim_command (command : String) (args : List String)
    (repo_path : String) (animate : Bool) (n : Int) (light_mode : Bool)
    (img_format : String) (video_format : String) (low_quality : Bool)
    (reverse : Bool) (all_branches : Bool) (media_dir : Option String)
    (output_only_path : Bool) (extra_flags : List String) : List String :=
  let cmd := ["git-sim"]
  let cmd := if animate then cmd ++ ["--animate"] else cmd
  let cmd := cmd ++ ["-n", toString n]
  let cmd := if light_mode then cmd ++ ["--light-mode"] else cmd
  let cmd := cmd ++ ["--img-format", img_format]
  let cmd :=
    if animate then
      let cmd := cmd ++ ["--video-format", video_format]
      if low_quality then cmd ++ ["--low-quality"] else cmd
    else cmd
  let cmd := if reverse then cmd ++ ["--reverse"] else cmd
  let cmd := if all_branches then cmd ++ ["--all"] else cmd
  let cmd :=
    match media_dir with
    | some d => if d != "" then cmd ++ ["--media-dir", d] else cmd
    | none => cmd
  let cmd := if output_only_path then cmd ++ ["--output-only-path"] else cmd
  let cmd := cmd ++ ["-d"]
  let cmd := if extra_flags != [] then cmd ++ extra_flags else cmd
  let cmd := cmd ++ [command]
  if args != [] then cmd ++ args else cmd

/-- The flag block of the argument vector written in the fixed order the
spec prescribes (§4.2), as one flat concatenation: everything before the
subcommand name. -/
def specFlagBlock (animate : Bool) (n : Int) (light_mode : Bool)
    (img_format : String) (video_format : String) (low_quality : Bool)
    (reverse : Bool) (all_branches : Bool) (media_dir : Option String)
    (output_only_path : Bool) (extra_flags : List String) : List String :=
  ["git-sim"]
  ++ (if animate then ["--animate"] else [])
  ++ ["-n", toString n]
  ++ (if light_mode then ["--light-mode"] else [])
  ++ ["--img-format", img_format]
  ++ (if animate then
        ["--video-format", video_format] ++ (if low_quality then ["--low-quality"] else [])
      else [])
  ++ (if reverse then ["--reverse"] else [])
  ++ (if all_branches then ["--all"] else [])
  ++ (match media_dir with
      | some d => if d != "" then ["--media-dir", d] else []
      | none => [])
  ++ (if output_only_path then ["--output-only-path"] else [])
  ++ ["-d"]
  ++ extra_flags

/-- The full argument vector in the spec's fixed order: the flag block,
then the subcommand, then the positional arguments in input order. -/
def specOrderedCommand (command : String) (args : List String)
    (animate : Bool) (n : Int) (light_mode : Bool)
    (img_format : String) (video_format : String) (low_quality : Bool)
    (reverse : Bool) (all_branches : Bool) (media_dir : Option String)
    (output_only_path : Bool) (extra_flags : List String) : List String :=
  specFlagBlock animate n light_mode img_format video_format low_quality
    reverse all_branches media_dir output_only_path extra_flags
  ++ [command] ++ args

/-! ## Output interpreter (inline in `execute_git_sim`) -/

/-- The four artifact extensions recognised by the heuristic scan
(`.jpg`, `.png`, `.mp4`, `.webm`). -/
def artifactExts : List String := [".jpg", ".png", ".mp4", ".webm"]

/-- `line.endswith((".jpg", ".png", ".mp4", ".webm"))`. -/
def endsWithAnyExt (s : String) : Bool :=
  artifactExts.any (fun e => strEndsWith s e)

/-- A stdout line is a candidate for the heuristic scan iff it contains
the `"git-sim_media"` marker or ends with a known artifact extension
(server.py line 259). -/
def isCandidateLine (line : String) : Bool :=
  strContainsSub line "git-sim_media" || endsWithAnyExt line

/-- Within one candidate line: strip it, split it on whitespace, and
return the first token that exists on disk and ends with a known artifact
extension (server.py lines 263-269, the inner `for part` loop with its
`break`).  `fsExists` abstracts `Path(part).exists()`. -/
def findMediaTokenInLine (fsExists : String → Bool) (line : String) : Option String :=
  let parts := (pySplitWs (pyStrip line).data).map String.mk
  parts.find? (fun part => fsExists part && endsWithAnyExt part)

/-- The heuristic extraction loop of `execute_git_sim` (server.py lines
256-269): iterate over the lines of stdout; on each candidate line that
yields a satisfying token, overwrite the media path.  The inner `break`
only ends the per-line token loop, so later candidate lines keep being
scanned. -/
def extract_media_heuristic (fsExists : String → Bool) (stdout_str : String) :
    Option String :=
  (pySplitOnChar '\n' stdout_str).foldl
    (fun acc line =>
      if isCandidateLine line then
        match findMediaTokenInLine fsExists line with
        | some part => some part
        | none => acc
      else acc)
    none

/-! ## Process runner (`execute_git_sim` of `git_sim_mcp/server.py`) -/

/-- The outcome of the effectful part of `execute_git_sim`: an exception
raised while building the command (so the local `cmd` was never bound),
an exception raised while spawning the process or reading its streams
(with `cmd` already built), or a completed process with its exit code and
lossily decoded stdout/stderr. -/
inductive SpawnOutcome where
  | buildRaises (msg : String)
  | spawnRaises (msg : String)
  | completes (returncode : Int) (stdout_str stderr_str : String)
deriving Repr, DecidableEq

/-- The response dictionary of `execute_git_sim`.  `command` and
`return_code` are `Option` because the exception path returns a
dictionary whose `command` value can be Python `None` and which has no
`return_code` key at all; `media_path` is `Option` because the key is
only set when a media file is recovered. -/
structure ExecResponse where
  success : Bool
  output : String
  error : Option String
  command : Option String
  return_code : Option Int
  media_path : Option String
deriving Repr, DecidableEq

/-- Embeds `execute_git_sim` from `src/git_sim_mcp/server.py` (lines
204-280): build the command, run it, assemble the response, try to
recover the media path (explicitly when `output_only_path`, else
heuristically), and convert any exception into a failure response. -/
def execute_git_sim (fsExists : String → Bool) (command : String)
    (args : List String) (repo_path : String) (animate : Bool) (n : Int)
    (light_mode : Bool) (img_format : String) (video_format : String)
    (low_quality : Bool) (reverse : Bool) (all_branches : Bool)
    (media_dir : Option String) (output_only_path : Bool)
    (extra_flags : List String) (outcome : SpawnOutcome) : ExecResponse :=
  match outcome with
  | .buildRaises msg =>
      { success := false, output := "", error := some msg,
        command := none, return_code := none, media_path := none }
  | .spawnRaises msg =>
      let cmd := build_git_sim_command command args repo_path animate n
        light_mode img_format video_format low_quality reverse all_branches
        media_dir output_only_path extra_flags
      { success := false, output := "", error := some msg,
        command := some (String.intercalate " " cmd),
        return_code := none, media_path := none }
  | .completes returncode stdout_str stderr_str =>
      let cmd := build_git_sim_command command args repo_path animate n
        light_mode img_format video_format low_quality reverse all_branches
        media_dir output_only_path extra_flags
      let success := returncode == 0
      let media_path :=
        if success && stdout_str != "" then
          if output_only_path then
            let mp := pyStrip stdout_str
            if mp != "" && fsExists mp then some mp else none
          else
            extract_media_heuristic fsExists stdout_str
        else none
      { success := success,
        output := stdout_str,
        error := if stderr_str != "" then some stderr_str else none,
        command := some (String.intercalate " " cmd),
        return_code := some returncode,
        media_path := media_path }

/-! ## CORS policy resolution (`get_cors_config` of `git_sim_mcp/sse_server.py`) -/

/-- The resolved CORS configuration dictionary. -/
structure CorsConfig where
  allow_origins : List String
  allow_methods : List String
  allow_headers : List String
  allow_credentials : Bool
deriving Repr, DecidableEq

/-- Python's `value.lower() in ("true", "1", "yes")` truthiness test used
for the CORS switches. -/
def pyTruthyEnv (s : String) : Bool :=
  ["true", "1", "yes"].contains (pyLower s)

/-- `os.getenv(name, dflt)` over an abstract environment. -/
def getenvD (env : String → Option String) (name dflt : String) : String :=
  (env name).getD dflt

/-- Embeds `get_cors_config` from `src/git_sim_mcp/sse_server.py` (lines
22-51): the accept-all switch forces a fully open policy with credentials
off; otherwise origins/methods/headers come from comma-separated
environment values (with the `"*"` literal special-cased for origins and
headers) and credentials is its own truthy switch. -/
def get_cors_config (env : String → Option String) : CorsConfig :=
  let accept_all := pyTruthyEnv (getenvD env "GIT_SIM_CORS_ACCEPT_ALL" "false")
  if accept_all then
    { allow_origins := ["*"], allow_methods := ["*"], allow_headers := ["*"],
      allow_credentials := false }
  else
    let allow_origins := getenvD env "GIT_SIM_CORS_ALLOW_ORIGINS" "*"
    let allow_methods := getenvD env "GIT_SIM_CORS_ALLOW_METHODS" "GET,POST,OPTIONS"
    let allow_headers := getenvD env "GIT_SIM_CORS_ALLOW_HEADERS" "*"
    let origins :=
      if allow_origins != "*" then (pySplitOnChar ',' allow_origins).map pyStrip
      else ["*"]
    let methods := (pySplitOnChar ',' allow_methods).map pyStrip
    let headers :=
      if allow_headers != "*" then (pySplitOnChar ',' allow_headers).map pyStrip
      else ["*"]
    { allow_origins := origins, allow_methods := methods,
      allow_headers := headers,
      allow_credentials :=
        pyTruthyEnv (getenvD env "GIT_SIM_CORS_ALLOW_CREDENTIALS" "false") }

/-! ## Repository-clone cache

The functions `clone_repo`, `_cloned_repos` and `cleanup_cloned_repos` of
`git_sim_mcp.server` are imported and exercised by
`tests/mcp_tests/test_clone_repo.py`, but their code is not present in
the source tree; they are modelled here from the spec (§4.5). -/

/-- The module-level `_cloned_repos` table: source URL → local directory
path, at most one entry per URL. -/
structure CloneCacheState where
  entries : List (String × String)
deriving Repr, DecidableEq

/-- The result dictionary of one `clone_repo` call.  `cloneInvoked`
records whether this call spawned an external `git clone` process. -/
structure CloneResult where
  success : Bool
  local_path : Option String
  message : String
  cloneInvoked : Bool
deriving Repr, DecidableEq

/-- Look up the cached directory recorded for `url`. -/
def lookupRepo (url : String) (entries : List (String × String)) : Option String :=
  (entries.find? (fun e => e.1 == url)).map (fun e => e.2)

/-- Modelled from the spec: `clone_repo` (the cache's `acquire(url,
branch?)`, §4.5), missing from the source tree.  If a live entry exists
for `url` — recorded and with its directory still present on disk
(`dirExists`) — return it immediately with a reuse message and without
spawning a clone.  Otherwise allocate a fresh temporary directory
(`freshDir` models what `tempfile.mkdtemp` returns), invoke the external
clone (`cloneOk` models its success; `branch` only adds `-b branch` to
the external argv and does not affect the cache), and on success record
the URL→directory mapping before returning it; on failure return a
failure outcome and record nothing. -/
def clone_repo (dirExists : String → Bool) (freshDir : String)
    (cloneOk : Bool) (url : String) (branch : Option String)
    (st : CloneCacheState) : CloneResult × CloneCacheState :=
  let doClone : CloneResult × CloneCacheState :=
    if cloneOk then
      ({ success := true, local_path := some freshDir,
         message := "Repository cloned successfully", cloneInvoked := true },
       { entries := (url, freshDir) :: st.entries.filter (fun e => e.1 != url) })
    else
      ({ success := false, local_path := none,
         message := "Failed to clone repository", cloneInvoked := true }, st)
  match lookupRepo url st.entries with
  | some path =>
      if dirExists path then
        ({ success := true, local_path := some path,
           message := "Repository already cloned", cloneInvoked := false }, st)
      else doClone
  | none => doClone

/-- Modelled from the spec: `cleanup_cloned_repos` (the cache's
`cleanup()`, §4.5), missing from the source tree.  For every recorded
entry, best-effort remove the backing directory — removal from the
abstract filesystem `fs` (the list of existing directories) tolerates
directories already missing, since filtering a missing directory is a
no-op — then clear the cache unconditionally. -/
def cleanup_cloned_repos (fs : List String) (st : CloneCacheState) :
    List String × CloneCacheState :=
  (st.entries.foldl (fun f e => f.filter (fun d => d != e.2)) fs,
   { entries := [] })

/-! ## Helper lemmas -/

/-- Python's `if lst: cmd.extend(lst)` is a plain append. -/
lemma append_if_ne_nil (l m : List String) :
    (if m != [] then l ++ m else l) = l ++ m := by
  cases m <;> simp

set_option maxHeartbeats 1600000 in
/-- The sequentially built argument vector equals the flat concatenation
in the spec's fixed flag order. -/
lemma build_eq_specOrdered (command : String) (args : List String)
    (repo_path : String) (animate : Bool) (n : Int) (light_mode : Bool)
    (img_format : String) (video_format : String) (low_quality : Bool)
    (reverse : Bool) (all_branches : Bool) (media_dir : Option String)
    (output_only_path : Bool) (extra_flags : List String) :
    build_git_sim_command command args repo_path animate n light_mode img_format
      video_format low_quality reverse all_branches media_dir output_only_path extra_flags
    = specOrderedCommand command args animate n light_mode img_format
      video_format low_quality reverse all_branches media_dir output_only_path extra_flags := by
  cases media_dir <;> cases animate <;> cases light_mode <;> cases low_quality <;>
    cases reverse <;> cases all_branches <;> cases output_only_path <;>
    simp [build_git_sim_command, specOrderedCommand, specFlagBlock, append_if_ne_nil,
      List.append_assoc] <;>
    split_ifs <;> simp_all

/-! ## Claims about the command compiler -/

/-- C1: the compiled argument vector begins with the executable name and
lists the flags in exactly the fixed order of the spec (animation flag,
display-count flag with value, light-mode flag, image-format flag with
value, video-format flag then low-quality flag only when animating,
reverse flag, all-branches flag, custom output-directory flag,
output-only-path flag, the fixed "-d", the passthrough flags in order,
the subcommand, the positional arguments in input order); in particular
it always ends with `subcommand :: positional arguments`, and the
request `{command := "merge", args := ["feature"], n := 10,
light_mode := true}` (all other options at their defaults) yields a
vector ending in `["-n", "10", "--light-mode", "--img-format", "jpg",
"-d", "merge", "feature"]`. -/
theorem build_command_fixed_order :
    (∀ (command : String) (args : List String) (repo_path : String)
       (animate : Bool) (n : Int) (light_mode : Bool) (img_format : String)
       (video_format : String) (low_quality : Bool) (reverse : Bool)
       (all_branches : Bool) (media_dir : Option String)
       (output_only_path : Bool) (extra_flags : List String),
       build_git_sim_command command args repo_path animate n light_mode
         img_format video_format low_quality reverse all_branches media_dir
         output_only_path extra_flags
       = specOrderedCommand command args animate n light_mode img_format
           video_format low_quality reverse all_branches media_dir
           output_only_path extra_flags
       ∧ ∃ front,
           build_git_sim_command command args repo_path animate n light_mode
             img_format video_format low_quality reverse all_branches media_dir
             output_only_path extra_flags
           = front ++ (command :: args))
    ∧ List.IsSuffix
        ["-n", "10", "--light-mode", "--img-format", "jpg", "-d", "merge", "feature"]
        (build_git_sim_command "merge" ["feature"] "." false 10 true "jpg" "mp4"
          false false false none false []) := by
  refine ⟨fun command args repo_path animate n light_mode img_format video_format
      low_quality reverse all_branches media_dir output_only_path extra_flags =>
      ⟨build_eq_specOrdered .., ?_⟩, ⟨["git-sim"], rfl⟩⟩
  refine ⟨specFlagBlock animate n light_mode img_format video_format low_quality
    reverse all_branches media_dir output_only_path extra_flags, ?_⟩
  rw [build_eq_specOrdered]
  simp [specOrderedCommand, List.append_assoc]

/-- C10 counterexample: the claim "for every request whose `media_dir` is
`None` or the empty string, the compiled argument vector contains no
`--media-dir` element" fails when the caller passes `--media-dir` through
`extra_flags`: here `media_dir = none` yet the vector contains
`"--media-dir"`. -/
theorem media_dir_unset_counterexample :
    "--media-dir" ∈
      build_git_sim_command "log" [] "." false 5 false "jpg" "mp4"
        false false false none false ["--media-dir", "/tmp/x"] := by
  decide

/-- C10 amended: the compiler itself emits no `--media-dir` flag when
`media_dir` is `None` or the empty string — an explicitly supplied empty
string compiles identically to leaving the option unset, and the vector
contains no `"--media-dir"` element provided none of the caller-supplied
strings (positional arguments, passthrough flags, the subcommand, the
image/video formats, or the rendered display count) equals
`"--media-dir"`. -/
theorem media_dir_unset_amended :
    (∀ (command : String) (args : List String) (repo_path : String)
       (animate : Bool) (n : Int) (light_mode : Bool) (img_format : String)
       (video_format : String) (low_quality : Bool) (reverse : Bool)
       (all_branches : Bool) (output_only_path : Bool) (extra_flags : List String),
       build_git_sim_command command args repo_path animate n light_mode
         img_format video_format low_quality reverse all_branches (some "")
         output_only_path extra_flags
       = build_git_sim_command command args repo_path animate n light_mode
           img_format video_format low_quality reverse all_branches none
           output_only_path extra_flags)
    ∧ (∀ (command : String) (args : List String) (repo_path : String)
         (animate : Bool) (n : Int) (light_mode : Bool) (img_format : String)
         (video_format : String) (low_quality : Bool) (reverse : Bool)
         (all_branches : Bool) (media_dir : Option String)
         (output_only_path : Bool) (extra_flags : List String),
         (media_dir = none ∨ media_dir = some "") →
         "--media-dir" ∉ extra_flags → "--media-dir" ∉ args →
         "--media-dir" ≠ command → "--media-dir" ≠ img_format →
         "--media-dir" ≠ video_format → "--media-dir" ≠ toString n →
         "--media-dir" ∉
           build_git_sim_command command args repo_path animate n light_mode
             img_format video_format low_quality reverse all_branches media_dir
             output_only_path extra_flags) := by
  constructor
  · intro command args repo_path animate n light_mode img_format video_format
      low_quality reverse all_branches output_only_path extra_flags
    rw [build_eq_specOrdered, build_eq_specOrdered]
    simp [specOrderedCommand, specFlagBlock]
  · intro command args repo_path animate n light_mode img_format video_format
      low_quality reverse all_branches media_dir output_only_path extra_flags
      hmd hef ha hc hi hv hn
    rw [build_eq_specOrdered]
    rcases hmd with rfl | rfl <;>
      cases animate <;> cases light_mode <;> cases low_quality <;>
      cases reverse <;> cases all_branches <;> cases output_only_path <;>
      simp_all [specOrderedCommand, specFlagBlock]

/-- C10 amended, witness: a concrete request with `media_dir = none` whose
compiled vector has no `"--media-dir"`. -/
theorem media_dir_unset_amended_witness :
    "--media-dir" ∉
      build_git_sim_command "log" ["main"] "." false 5 false "jpg" "mp4"
        false false false none false ["--x"] :=
  media_dir_unset_amended.2 "log" ["main"] "." false 5 false "jpg" "mp4"
    false false false none false ["--x"] (Or.inl rfl) (by decide) (by decide)
    (by decide) (by decide) (by decide) (by decide)

/-! ## Claims about the heuristic output interpreter -/

/-- A fold that keeps the most recent `some` produced by `g` computes the
last `some` in the list, falling back to the accumulator. -/
lemma foldl_lastWins (g : String → Option String) :
    ∀ (l : List String) (a : Option String),
      l.foldl (fun acc x => match g x with | some p => some p | none => acc) a
        = ((l.filterMap g).getLast?).or a := by
  intro l
  induction l with
  | nil => intro a; rfl
  | cons x xs ih =>
    intro a
    rw [List.foldl_cons, ih]
    cases hg : g x with
    | none => simp [List.filterMap_cons, hg]
    | some p =>
      simp only [List.filterMap_cons, hg]
      cases hfm : xs.filterMap g with
      | nil => simp
      | cons q t =>
        rw [List.getLast?_cons_cons]
        rcases e : (q :: t).getLast? with _ | v
        · simp [List.getLast?_eq_none_iff] at e
        · rfl

/-- An element selected by `getLast?` is a member of the list. -/
lemma mem_of_getLast?_eq {α : Type} {l : List α} {a : α}
    (h : l.getLast? = some a) : a ∈ l := by
  obtain ⟨hne, rfl⟩ := List.mem_getLast?_eq_getLast (Option.mem_def.mpr h)
  exact List.getLast_mem hne

/-- The heuristic loop computes the per-line extraction of the LAST
candidate line that yields a satisfying token: the loop never stops
early, so later candidate lines overwrite earlier ones. -/
lemma extract_eq_getLast (fsExists : String → Bool) (s : String) :
    extract_media_heuristic fsExists s
      = ((pySplitOnChar '\n' s).filterMap
          (fun line =>
            if isCandidateLine line then findMediaTokenInLine fsExists line
            else none)).getLast? := by
  have hbody : (fun (acc : Option String) (line : String) =>
        if isCandidateLine line then
          match findMediaTokenInLine fsExists line with
          | some part => some part
          | none => acc
        else acc)
      = (fun acc line =>
          match (if isCandidateLine line then findMediaTokenInLine fsExists line
                 else none) with
          | some p => some p
          | none => acc) := by
    funext acc line
    cases hc : isCandidateLine line <;> simp
  unfold extract_media_heuristic
  rw [hbody, foldl_lastWins, Option.or_none]

/-- Any token returned by the per-line scan satisfies its selection
predicate: it exists on disk and carries a media extension. -/
lemma findMediaTokenInLine_pred (fsExists : String → Bool) (line : String)
    (p : String) (h : findMediaTokenInLine fsExists line = some p) :
    (fsExists p && endsWithAnyExt p) = true := by
  unfold findMediaTokenInLine at h
  have h' : (List.map String.mk (pySplitWs (pyStrip line).data)).find?
      (fun part => fsExists part && endsWithAnyExt part) = some p := h
  have h2 := List.find?_some h'
  exact h2

/-- Any path produced by the heuristic scan exists on disk and carries a
media extension. -/
lemma extract_pred (fsExists : String → Bool) (s : String) :
    (extract_media_heuristic fsExists s).all
      (fun p => fsExists p && endsWithAnyExt p) = true := by
  rw [extract_eq_getLast]
  rcases h : ((pySplitOnChar '\n' s).filterMap
      (fun line =>
        if isCandidateLine line then findMediaTokenInLine fsExists line
        else none)).getLast? with _ | p
  · rfl
  · obtain ⟨line, _, hline⟩ := List.mem_filterMap.mp (mem_of_getLast?_eq h)
    cases hc : isCandidateLine line
    · rw [hc] at hline; simp at hline
    · rw [hc] at hline
      simp only [if_true] at hline
      simpa using findMediaTokenInLine_pred fsExists line p hline

/-- C2 counterexample: with a filesystem on which both `a.jpg` and
`b.jpg` exist and subprocess output `"a.jpg\nb.jpg"`, the first candidate
line (`"a.jpg"`) yields the satisfying token `"a.jpg"`, yet the scan does
not stop there: the final artifact path is `"b.jpg"`, from the later
candidate line, refuting "the first token that satisfies both becomes
the artifact path, it wins, and scanning stops". -/
theorem heuristic_scan_counterexample :
    isCandidateLine "a.jpg" = true
    ∧ findMediaTokenInLine (fun s => s == "a.jpg" || s == "b.jpg") "a.jpg"
        = some "a.jpg"
    ∧ extract_media_heuristic (fun s => s == "a.jpg" || s == "b.jpg") "a.jpg\nb.jpg"
        = some "b.jpg"
    ∧ (some "b.jpg" : Option String) ≠ some "a.jpg" :=
  ⟨rfl, rfl, rfl, by decide⟩

/-- C2 amended: in heuristic extraction mode the output is scanned line
by line; a line is a candidate iff it contains the generated-media marker
or ends with a known artifact extension; within a candidate line the
first whitespace-separated token that exists on disk and carries a
matching extension is taken for that line (and any taken token satisfies
both checks), but scanning of later lines continues: the artifact path is
the token of the LAST candidate line that yields one, later candidate
lines overwriting earlier results. -/
theorem heuristic_scan_amended :
    (∀ (fsExists : String → Bool) (stdout_str : String),
       extract_media_heuristic fsExists stdout_str
         = ((pySplitOnChar '\n' stdout_str).filterMap
             (fun line =>
               if isCandidateLine line then findMediaTokenInLine fsExists line
               else none)).getLast?)
    ∧ (∀ (fsExists : String → Bool) (line : String),
        findMediaTokenInLine fsExists line
          = ((pySplitWs (pyStrip line).data).map String.mk).find?
              (fun part => fsExists part && endsWithAnyExt part))
    ∧ (∀ (fsExists : String → Bool) (line : String),
        (findMediaTokenInLine fsExists line).all
          (fun p => fsExists p && endsWithAnyExt p) = true) := by
  refine ⟨extract_eq_getLast, fun _ _ => rfl, fun fsExists line => ?_⟩
  rcases h : findMediaTokenInLine fsExists line with _ | p
  · rfl
  · simpa using findMediaTokenInLine_pred fsExists line p h

/-! ## Claims about the process runner -/

/-- Weakening of `Option.all` along the left conjunct. -/
lemma optAll_and_left (o : Option String) (p q : String → Bool)
    (h : o.all (fun x => p x && q x) = true) : o.all p = true := by
  cases o <;> simp_all

/-- C5 counterexample: the exception path does not return "the same
structured failure shape as a non-zero-exit result": a spawn failure
yields a response with no `return_code` at all (whereas a non-zero exit
yields `some 1`), and a build-time failure yields a response whose
`command` is `None` rather than the attempted command line. -/
theorem exec_exception_shape_counterexample :
    (execute_git_sim (fun _ => false) "log" [] "." false 5 false "jpg" "mp4" false false
        false none false [] (.spawnRaises "No such file or directory")).return_code = none
    ∧ (execute_git_sim (fun _ => false) "log" [] "." false 5 false "jpg" "mp4" false false
        false none false [] (.buildRaises "unexpected keyword argument")).command = none
    ∧ (execute_git_sim (fun _ => false) "log" [] "." false 5 false "jpg" "mp4" false false
        false none false [] (.completes 1 "" "boom")).return_code = some 1 :=
  ⟨rfl, rfl, rfl⟩

/-- C5 amended: every exception raised while building the command,
spawning the process or reading its streams is caught and converted into
a failure response — `success = false`, empty output, the error
description — and never propagates; the response carries the attempted
command line only when the command had already been built (it is `None`
for build-time failures), and, unlike a non-zero-exit result, the
exception-path response carries no exit-code field. -/
theorem exec_exception_amended :
    ∀ (fsExists : String → Bool) (command : String) (args : List String)
      (repo_path : String) (animate : Bool) (n : Int) (light_mode : Bool)
      (img_format : String) (video_format : String) (low_quality : Bool)
      (reverse : Bool) (all_branches : Bool) (media_dir : Option String)
      (output_only_path : Bool) (extra_flags : List String) (msg : String),
      execute_git_sim fsExists command args repo_path animate n light_mode
        img_format video_format low_quality reverse all_branches media_dir
        output_only_path extra_flags (.buildRaises msg)
      = { success := false, output := "", error := some msg, command := none,
          return_code := none, media_path := none }
      ∧ execute_git_sim fsExists command args repo_path animate n light_mode
          img_format video_format low_quality reverse all_branches media_dir
          output_only_path extra_flags (.spawnRaises msg)
        = { success := false, output := "", error := some msg,
            command := some (String.intercalate " "
              (build_git_sim_command command args repo_path animate n light_mode
                img_format video_format low_quality reverse all_branches media_dir
                output_only_path extra_flags)),
            return_code := none, media_path := none } :=
  fun _ _ _ _ _ _ _ _ _ _ _ _ _ _ _ _ => ⟨rfl, rfl⟩

/-- C6: in explicit extraction mode (`output_only_path` requested), for a
successful execution with non-empty stdout, if the trimmed stdout names
an existing file (it is non-empty and the existence check accepts it) the
media path is exactly that trimmed stdout; if the existence check rejects
the trimmed stdout, no media path is set. -/
theorem exec_explicit_path
    (fsExists : String → Bool) (command : String) (args : List String)
    (repo_path : String) (animate : Bool) (n : Int) (light_mode : Bool)
    (img_format : String) (video_format : String) (low_quality : Bool)
    (reverse : Bool) (all_branches : Bool) (media_dir : Option String)
    (extra_flags : List String) (out err : String) (hout : out ≠ "") :
    (pyStrip out ≠ "" → fsExists (pyStrip out) = true →
      (execute_git_sim fsExists command args repo_path animate n light_mode
          img_format video_format low_quality reverse all_branches media_dir
          true extra_flags (.completes 0 out err)).media_path
        = some (pyStrip out))
    ∧ (fsExists (pyStrip out) = false →
        (execute_git_sim fsExists command args repo_path animate n light_mode
            img_format video_format low_quality reverse all_branches media_dir
            true extra_flags (.completes 0 out err)).media_path = none) := by
  constructor
  · intro hmp hex
    simp [execute_git_sim, hout, hmp, hex]
  · intro hex
    simp [execute_git_sim, hout, hex]

/-- C6 witness: a concrete explicit-mode run whose trimmed stdout exists
on disk recovers exactly that path. -/
theorem exec_explicit_path_witness :
    (execute_git_sim (fun s => s == "/tmp/git-sim_media/a.jpg") "log" [] "."
        false 5 false "jpg" "mp4" false false false none true []
        (.completes 0 " /tmp/git-sim_media/a.jpg\n" "")).media_path
      = some "/tmp/git-sim_media/a.jpg" :=
  (exec_explicit_path (fun s => s == "/tmp/git-sim_media/a.jpg") "log" [] "."
      false 5 false "jpg" "mp4" false false false none []
      " /tmp/git-sim_media/a.jpg\n" "" (by decide)).1 (by decide) (by decide)

/-- C7: the success flag of a completed execution is true iff the exit
code is zero; any media path in any response is accepted by the
existence check used to produce it; and the concrete non-zero example —
exit code 128 with stderr containing "not found" — yields
`success = false`, an error containing "not found", and
`return_code = some 128`. -/
theorem exec_success_iff_zero :
    (∀ (fsExists : String → Bool) (command : String) (args : List String)
       (repo_path : String) (animate : Bool) (n : Int) (light_mode : Bool)
       (img_format : String) (video_format : String) (low_quality : Bool)
       (reverse : Bool) (all_branches : Bool) (media_dir : Option String)
       (output_only_path : Bool) (extra_flags : List String)
       (rc : Int) (out err : String),
       (execute_git_sim fsExists command args repo_path animate n light_mode
           img_format video_format low_quality reverse all_branches media_dir
           output_only_path extra_flags (.completes rc out err)).success = true
         ↔ rc = 0)
    ∧ (∀ (fsExists : String → Bool) (command : String) (args : List String)
         (repo_path : String) (animate : Bool) (n : Int) (light_mode : Bool)
         (img_format : String) (video_format : String) (low_quality : Bool)
         (reverse : Bool) (all_branches : Bool) (media_dir : Option String)
         (output_only_path : Bool) (extra_flags : List String)
         (outcome : SpawnOutcome),
         ((execute_git_sim fsExists command args repo_path animate n light_mode
             img_format video_format low_quality reverse all_branches media_dir
             output_only_path extra_flags outcome).media_path).all fsExists = true)
    ∧ ((execute_git_sim (fun _ => false) "clone" [] "." false 5 false "jpg" "mp4"
          false false false none true []
          (.completes 128 "" "fatal: repository 'x' not found")).success = false
       ∧ strContainsSub
           ((execute_git_sim (fun _ => false) "clone" [] "." false 5 false "jpg" "mp4"
               false false false none true []
               (.completes 128 "" "fatal: repository 'x' not found")).error.getD "")
           "not found" = true
       ∧ (execute_git_sim (fun _ => false) "clone" [] "." false 5 false "jpg" "mp4"
            false false false none true []
            (.completes 128 "" "fatal: repository 'x' not found")).return_code
          = some 128) := by
  refine ⟨?_, ?_, rfl, rfl, rfl⟩
  · intro fsExists command args repo_path animate n light_mode img_format video_format
      low_quality reverse all_branches media_dir output_only_path extra_flags rc out err
    simp [execute_git_sim]
  · intro fsExists command args repo_path animate n light_mode img_format video_format
      low_quality reverse all_branches media_dir output_only_path extra_flags outcome
    cases outcome with
    | buildRaises msg => rfl
    | spawnRaises msg => rfl
    | completes rc out err =>
      simp only [execute_git_sim]
      split
      · split
        · split
          · rename_i hcond
            simp_all
          · rfl
        · exact optAll_and_left _ _ _ (extract_pred fsExists out)
      · rfl

/-- C9: a failure response never carries a media path: whenever
`success = false` — non-zero exit, build-time exception, or spawn
exception — the media path is unset. -/
theorem exec_failure_no_media :
    ∀ (fsExists : String → Bool) (command : String) (args : List String)
      (repo_path : String) (animate : Bool) (n : Int) (light_mode : Bool)
      (img_format : String) (video_format : String) (low_quality : Bool)
      (reverse : Bool) (all_branches : Bool) (media_dir : Option String)
      (output_only_path : Bool) (extra_flags : List String)
      (outcome : SpawnOutcome),
      (execute_git_sim fsExists command args repo_path animate n light_mode
          img_format video_format low_quality reverse all_branches media_dir
          output_only_path extra_flags outcome).success = false →
      (execute_git_sim fsExists command args repo_path animate n light_mode
          img_format video_format low_quality reverse all_branches media_dir
          output_only_path extra_flags outcome).media_path = none := by
  intro fsExists command args repo_path animate n light_mode img_format video_format
    low_quality reverse all_branches media_dir output_only_path extra_flags outcome
  cases outcome with
  | buildRaises msg => intro; rfl
  | spawnRaises msg => intro; rfl
  | completes rc out err =>
    intro h
    simp only [execute_git_sim] at h ⊢
    simp [h]

/-- C9 witness: a concrete non-zero-exit response has `success = false`
and no media path. -/
theorem exec_failure_no_media_witness :
    (execute_git_sim (fun _ => true) "log" [] "." false 5 false "jpg" "mp4"
        false false false none false [] (.completes 1 "out" "err")).media_path = none :=
  exec_failure_no_media (fun _ => true) "log" [] "." false 5 false "jpg" "mp4"
    false false false none false [] (.completes 1 "out" "err") rfl

/-! ## Claims about the CORS policy resolution -/

/-- C8: whenever the accept-all switch holds a truthy value
(case-insensitively `"true"`, `"1"` or `"yes"`), the resolved CORS policy
is fully open (`["*"]` origins/methods/headers) with credentials off, no
matter what the other CORS variables say; otherwise origins, methods and
headers come from the comma-separated configuration values (with the
`"*"` literal and documented defaults) and credentials is an independent
truthy switch.  A concrete environment setting `ACCEPT_ALL=YeS` together
with explicit origins and `CREDENTIALS=true` still resolves to the open
policy with credentials off. -/
theorem cors_accept_all_override :
    (∀ env : String → Option String,
       pyTruthyEnv (getenvD env "GIT_SIM_CORS_ACCEPT_ALL" "false") = true →
       get_cors_config env
         = { allow_origins := ["*"], allow_methods := ["*"],
             allow_headers := ["*"], allow_credentials := false })
    ∧ (∀ env : String → Option String,
        pyTruthyEnv (getenvD env "GIT_SIM_CORS_ACCEPT_ALL" "false") = false →
        get_cors_config env
          = { allow_origins :=
                if getenvD env "GIT_SIM_CORS_ALLOW_ORIGINS" "*" != "*" then
                  (pySplitOnChar ',' (getenvD env "GIT_SIM_CORS_ALLOW_ORIGINS" "*")).map pyStrip
                else ["*"],
              allow_methods :=
                (pySplitOnChar ','
                  (getenvD env "GIT_SIM_CORS_ALLOW_METHODS" "GET,POST,OPTIONS")).map pyStrip,
              allow_headers :=
                if getenvD env "GIT_SIM_CORS_ALLOW_HEADERS" "*" != "*" then
                  (pySplitOnChar ',' (getenvD env "GIT_SIM_CORS_ALLOW_HEADERS" "*")).map pyStrip
                else ["*"],
              allow_credentials :=
                pyTruthyEnv (getenvD env "GIT_SIM_CORS_ALLOW_CREDENTIALS" "false") })
    ∧ pyTruthyEnv "TRUE" = true ∧ pyTruthyEnv "YeS" = true ∧ pyTruthyEnv "1" = true
    ∧ pyTruthyEnv "false" = false ∧ pyTruthyEnv "no" = false
    ∧ get_cors_config (fun name =>
        if name == "GIT_SIM_CORS_ACCEPT_ALL" then some "YeS"
        else if name == "GIT_SIM_CORS_ALLOW_ORIGINS" then some "https://example.com"
        else if name == "GIT_SIM_CORS_ALLOW_CREDENTIALS" then some "true"
        else none)
      = { allow_origins := ["*"], allow_methods := ["*"], allow_headers := ["*"],
          allow_credentials := false } := by
  refine ⟨?_, ?_, rfl, rfl, rfl, rfl, rfl, rfl⟩
  · intro env h
    simp [get_cors_config, h]
  · intro env h
    simp [get_cors_config, h]

/-- C8 witness: the accept-all branch applied to the concrete environment
of the theorem's example, and the non-accept-all branch applied to an
environment carrying only explicit origins. -/
theorem cors_accept_all_override_witness :
    get_cors_config (fun name =>
        if name == "GIT_SIM_CORS_ALLOW_ORIGINS" then some "https://a.com, https://b.com"
        else none)
      = { allow_origins := ["https://a.com", "https://b.com"],
          allow_methods := ["GET", "POST", "OPTIONS"], allow_headers := ["*"],
          allow_credentials := false } :=
  cors_accept_all_override.2.1 (fun name =>
    if name == "GIT_SIM_CORS_ALLOW_ORIGINS" then some "https://a.com, https://b.com"
    else none) rfl

/-! ## Claims about the repository-clone cache (spec-modelled) -/

/-- C3: the clone cache deduplicates by URL: starting from an empty
cache, the first `clone_repo` call for a URL invokes the external clone
exactly once and returns the fresh directory; while that directory still
exists on disk, any further `clone_repo` call for the same URL — whatever
fresh directory it would have allocated and whatever the external clone
would have done — returns the same recorded path, with the reuse message,
without invoking a clone. -/
theorem clone_cache_dedup (dirExists : String → Bool) (freshDir url : String)
    (branch : Option String) (h : dirExists freshDir = true) :
    ((clone_repo dirExists freshDir true url branch ⟨[]⟩).1.cloneInvoked = true)
    ∧ ((clone_repo dirExists freshDir true url branch ⟨[]⟩).1.local_path = some freshDir)
    ∧ (∀ (freshDir2 : String) (cloneOk2 : Bool) (branch2 : Option String),
        (clone_repo dirExists freshDir2 cloneOk2 url branch2
            (clone_repo dirExists freshDir true url branch ⟨[]⟩).2).1
          = { success := true, local_path := some freshDir,
              message := "Repository already cloned", cloneInvoked := false }) := by
  refine ⟨rfl, rfl, fun freshDir2 cloneOk2 branch2 => ?_⟩
  simp [clone_repo, lookupRepo, h]

/-- C3 witness: two successive `clone_repo` calls for the same URL, the
recorded directory still existing: the second returns the first's path
with the reuse message and no clone invocation. -/
theorem clone_cache_dedup_witness :
    (clone_repo (fun d => d == "/tmp/git-sim-clone-abc") "/tmp/git-sim-clone-other"
        true "https://github.com/user/repo.git" none
        (clone_repo (fun d => d == "/tmp/git-sim-clone-abc") "/tmp/git-sim-clone-abc"
            true "https://github.com/user/repo.git" none ⟨[]⟩).2).1
      = { success := true, local_path := some "/tmp/git-sim-clone-abc",
          message := "Repository already cloned", cloneInvoked := false } :=
  (clone_cache_dedup (fun d => d == "/tmp/git-sim-clone-abc") "/tmp/git-sim-clone-abc"
      "https://github.com/user/repo.git" none (by decide)).2.2
    "/tmp/git-sim-clone-other" true none

/-- Removing directories only ever shrinks the abstract filesystem. -/
lemma removeDirs_subset :
    ∀ (entries : List (String × String)) (fs : List String) (d : String),
      d ∈ entries.foldl (fun f e => f.filter (fun x => x != e.2)) fs → d ∈ fs := by
  intro entries
  induction entries with
  | nil => intro fs d hd; exact hd
  | cons x xs ih =>
    intro fs d hd
    exact List.mem_of_mem_filter (ih _ d hd)

/-- Every directory recorded in the entry list is gone after the removal
fold. -/
lemma removeDirs_removes :
    ∀ (entries : List (String × String)) (fs : List String) (e : String × String),
      e ∈ entries →
      e.2 ∉ entries.foldl (fun f e => f.filter (fun x => x != e.2)) fs := by
  intro entries
  induction entries with
  | nil => intro fs e he; exact absurd he (List.not_mem_nil e)
  | cons x xs ih =>
    intro fs e he
    rcases List.mem_cons.mp he with rfl | hmem
    · intro hcontra
      have hx : e.2 ∈ fs.filter (fun y => y != e.2) := removeDirs_subset xs _ _ hcontra
      have := (List.mem_filter.mp hx).2
      simp at this
    · exact ih _ e hmem

/-- C4: `cleanup_cloned_repos` empties the cache, removes every tracked
directory from the filesystem however many entries existed, is
idempotent, and is a no-op on the filesystem when the cache holds zero
entries. -/
theorem cleanup_clears_cache :
    ∀ (fs : List String) (st : CloneCacheState),
      ((cleanup_cloned_repos fs st).2 = ⟨[]⟩)
      ∧ (st.entries.all
          (fun e => !((cleanup_cloned_repos fs st).1.contains e.2)) = true)
      ∧ (cleanup_cloned_repos (cleanup_cloned_repos fs st).1 (cleanup_cloned_repos fs st).2
          = cleanup_cloned_repos fs st)
      ∧ (cleanup_cloned_repos fs ⟨[]⟩ = (fs, ⟨[]⟩)) := by
  intro fs st
  refine ⟨rfl, ?_, rfl, rfl⟩
  rw [List.all_eq_true]
  intro e he
  have hnot := removeDirs_removes st.entries fs e he
  simp only [cleanup_cloned_repos]
  simpa using hnot

end GitSimMCP
